import Mathlib

/-!
Verification of the `rust-notion-sync` client library, final api revision
(`src/api/mod.rs`, `src/api/failure.rs`, `src/api/headers.rs`,
`src/api/parameters.rs`).

Modelling conventions:
* `serde_json::Value` is the inductive `Json`; object fields are an
  association list in insertion order.
* Rust `f64` values are modelled at rational abstraction by `F64`:
  a finite rational, NaN, or a signed infinity.  Binary rounding of the
  IEEE-754 representation (and overflow of huge decimal literals to
  infinity) is abstracted away; `str::parse::<f64>` is modelled by
  `parseF64` implementing the documented grammar over this abstraction.
* `std::time::Duration` is a count of nanoseconds.  `Duration::from_secs_f64`
  panics on negative, NaN, infinite or overflowing input; panics are
  modelled by `Option` (`none` = panic).  Its round-to-nearest at
  nanosecond granularity is modelled by `round` on rationals (the
  tie-breaking direction, irrelevant to the claims, may differ).
* `ureq::Error` is `UreqError`; `eyre::Report::new(err)` stored in
  `Error.source` is modelled by storing `err` itself.
* `tracing` diagnostics are side-effect free observability and are dropped.
-/

/-- Model of `serde_json::Value`. -/
inductive Json where
  | null : Json
  | bool (b : Bool) : Json
  | num (q : ℚ) : Json
  | str (s : String) : Json
  | arr (elems : List Json) : Json
  | obj (fields : List (String × Json)) : Json

/-- Rational-abstraction model of a Rust `f64` value. -/
inductive F64 where
  | finite (q : ℚ) : F64
  | nan : F64
  | inf (neg : Bool) : F64
deriving DecidableEq

/-- Digit characters to the natural number they denote in base 10. -/
def digitsVal (ds : List Char) : Nat :=
  ds.foldl (fun n c => 10 * n + (c.toNat - 48)) 0

/-- Case-insensitive match of a character list against a keyword. -/
def matchesKeywordCI (cs : List Char) (kw : String) : Bool :=
  cs.map Char.toLower == kw.data

/-- The mantissa part of the `f64` grammar: `Digit+ | Digit+ '.' Digit* |
Digit* '.' Digit+`, returning its rational value and the unconsumed rest. -/
def parseMantissa (cs : List Char) : Option (ℚ × List Char) :=
  let (d1, rest) := cs.span Char.isDigit
  match rest with
  | '.' :: rest2 =>
    let (d2, rest3) := rest2.span Char.isDigit
    if d1.isEmpty && d2.isEmpty then none
    else some ((digitsVal d1 : ℚ) + (digitsVal d2 : ℚ) / (10 : ℚ) ^ d2.length, rest3)
  | _ =>
    if d1.isEmpty then none else some ((digitsVal d1 : ℚ), rest)

/-- An optional leading sign; returns whether it was `-` and the rest. -/
def parseSign : List Char → Bool × List Char
  | '+' :: rest => (false, rest)
  | '-' :: rest => (true, rest)
  | cs => (false, cs)

/-- Model of `str::parse::<f64>` (`f64::from_str`): optional sign, then
`inf`, `infinity` or `nan` (case-insensitive), or a decimal mantissa with an
optional `e`/`E` exponent; the whole input must be consumed. -/
def parseF64 (s : String) : Option F64 :=
  match s.data with
  | [] => none
  | cs =>
    let (neg, cs1) := parseSign cs
    if matchesKeywordCI cs1 "inf" || matchesKeywordCI cs1 "infinity" then
      some (F64.inf neg)
    else if matchesKeywordCI cs1 "nan" then
      some F64.nan
    else
      match parseMantissa cs1 with
      | none => none
      | some (m, rest) =>
        let signed : ℚ := if neg then -m else m
        match rest with
        | [] => some (F64.finite signed)
        | e :: rest2 =>
          if e == 'e' || e == 'E' then
            let (eneg, rest3) := parseSign rest2
            let (eds, rest4) := rest3.span Char.isDigit
            if eds.isEmpty || !rest4.isEmpty then none
            else
              let ex : ℤ := if eneg then -(digitsVal eds : ℤ) else (digitsVal eds : ℤ)
              some (F64.finite (signed * (10 : ℚ) ^ ex))
          else none

/-- Model of `std::time::Duration`: a nanosecond count. -/
structure Duration where
  nanos : Nat
deriving DecidableEq

/-- Nanoseconds per second, as in `std::time`. -/
def NANOS_PER_SEC : Nat := 1000000000

/-- Model of `Duration::from_secs_f64`: `none` models the panic on negative,
NaN, infinite or overflowing (at least `2^64` seconds) input; otherwise the
value is rounded to the nearest nanosecond. -/
def Duration.from_secs_f64 : F64 → Option Duration
  | F64.nan => none
  | F64.inf _ => none
  | F64.finite q =>
    if q < 0 then none
    else if (2 : ℚ) ^ 64 ≤ q then none
    else some ⟨(round (q * (NANOS_PER_SEC : ℚ))).toNat⟩

/-- The code of a character with ASCII uppercase letters mapped to their
lowercase counterparts, as used by Rust's `eq_ignore_ascii_case`. -/
def charLowerCode (c : Char) : Nat :=
  if 65 ≤ c.toNat && c.toNat ≤ 90 then c.toNat + 32 else c.toNat

/-- Model of `str::eq_ignore_ascii_case`, the comparison `ureq` uses for
header names. -/
def eqIgnoreAsciiCase (a b : String) : Bool :=
  a.data.map charLowerCode == b.data.map charLowerCode

/-- Model of `ureq::Response`: status, headers and body. -/
structure Response where
  status : Nat
  headers : List (String × String)
  body : String

/-- Model of `Response::header`: ASCII-case-insensitive lookup of a header
value. -/
def Response.header (self : Response) (name : String) : Option String :=
  (self.headers.find? (fun p => eqIgnoreAsciiCase p.fst name)).map Prod.snd

/-- Model of `ureq::Error`: a transport-level failure carrying its detail, or
a non-2xx HTTP status with the received response. -/
inductive UreqError where
  | transport (details : String) : UreqError
  | status (code : Nat) (response : Response) : UreqError

/-- Model of `ErrorKind` from `src/api/failure.rs`. -/
inductive ErrorKind where
  | Authorization : ErrorKind
  | BadRequest : ErrorKind
  | Communication : ErrorKind
  | RateLimit (duration : Duration) : ErrorKind
  | Unexpected : ErrorKind
deriving DecidableEq

/-- Model of `Error` from `src/api/failure.rs`; `source` holds the original
`ureq::Error` (the `eyre::Report` wrapper is identity here). -/
structure Error where
  kind : ErrorKind
  source : UreqError

/-- Model of `Error::is_authorization`. -/
def Error.is_authorization (self : Error) : Bool :=
  match self.kind with
  | ErrorKind.Authorization => true
  | _ => false

/-- Model of `Error::is_bad_request`. -/
def Error.is_bad_request (self : Error) : Bool :=
  match self.kind with
  | ErrorKind.BadRequest => true
  | _ => false

/-- Model of `Error::is_communication`. -/
def Error.is_communication (self : Error) : Bool :=
  match self.kind with
  | ErrorKind.Communication => true
  | _ => false

/-- Model of `Error::is_rate_limit`. -/
def Error.is_rate_limit (self : Error) : Bool :=
  match self.kind with
  | ErrorKind.RateLimit _ => true
  | _ => false

/-- Model of `Error::retry_after`. -/
def Error.retry_after (self : Error) : Option Duration :=
  match self.kind with
  | ErrorKind.RateLimit duration => some duration
  | _ => none

/-- Model of `rate_limit_error_kind` from `src/api/failure.rs`: default the
missing header to `"1.0"`, default an unparseable header to `1.0`, then
convert the seconds to a duration (`none` models the conversion panic). -/
def rate_limit_error_kind (response : Response) : Option ErrorKind :=
  let retry_after := (response.header "Retry-After").getD "1.0"
  let seconds := (parseF64 retry_after).getD (F64.finite 1)
  match Duration.from_secs_f64 seconds with
  | some duration => some (ErrorKind.RateLimit duration)
  | none => none

/-- Model of `impl From<ureq::Error> for Error`: the sequential literal arms
of the Rust `match` (Transport, 400, 401, 429, wildcard) compiled to
equality tests; the original error is kept as `source`. -/
def Error.from_ureq (err : UreqError) : Option Error :=
  let kind : Option ErrorKind :=
    match err with
    | UreqError.transport _ => some ErrorKind.Communication
    | UreqError.status code response =>
      if code = 400 then some ErrorKind.BadRequest
      else if code = 401 then some ErrorKind.Authorization
      else if code = 429 then rate_limit_error_kind response
      else some ErrorKind.Unexpected
  kind.map (fun k => { kind := k, source := err })

/-- Model of `Result<Response, Error>` (`api::Result<Response>`). -/
abbrev ApiResult := Except Error Response

/-- Observable outcome of one `send_with_retries` run: the returned result,
the durations passed to the `sleep` primitive in order, and how many times
the wrapped operation `f` was invoked. -/
structure RetryOutcome where
  result : ApiResult
  waits : List Duration
  calls : Nat

/-- The loop body of `send_with_retries` from `src/api/mod.rs`.  The wrapped
`Fn` closure is modelled by the trace `f` of its successive results, indexed
by invocation number; the source's `retries` counter equals
`max_retries - retriesLeft`, so the source's `retries == max_retries` guard
is `retriesLeft = 0` and `retries += 1` is the decrement of `retriesLeft`. -/
def send_with_retries_go (f : Nat → ApiResult) :
    Nat → Nat → List Duration → RetryOutcome
  | 0, calls, waits => ⟨f calls, waits, calls + 1⟩
  | retriesLeft' + 1, calls, waits =>
    match f calls with
    | Except.ok r => ⟨Except.ok r, waits, calls + 1⟩
    | Except.error err =>
      if !err.is_rate_limit then ⟨Except.error err, waits, calls + 1⟩
      else
        match err.retry_after with
        | some duration => send_with_retries_go f retriesLeft' (calls + 1) (waits ++ [duration])
        | none => send_with_retries_go f retriesLeft' (calls + 1) waits

/-- The fixed `max_retries` of `send_with_retries`. -/
def max_retries : Nat := 3

/-- Model of `send_with_retries` from `src/api/mod.rs`: start with zero
retries used, no waits recorded, no calls made. -/
def send_with_retries (f : Nat → ApiResult) : RetryOutcome :=
  send_with_retries_go f max_retries 0 []

/-- Model of `ureq::Agent`, the opaque transport handle: an identity tag so
that sharing of the handle is observable. -/
structure Agent where
  id : Nat
deriving DecidableEq

/-- Model of `AgentBuilder::new().build()`: a fresh transport handle. -/
def AgentBuilder.build : Agent :=
  ⟨0⟩

/-- Model of `Client` from `src/api/mod.rs`. -/
structure Client where
  inner : Agent
  base_url : String
  api_key : String

/-- Model of `Client::new`: fresh agent, production base URL. -/
def Client.new (api_key : String) : Client :=
  { api_key := api_key
    inner := AgentBuilder.build
    base_url := "https://api.notion.com/v1" }

/-- Model of the builder method `Client::base_url`
(`Self { base_url, ..self }`); named `with_base_url` because the record
field already uses the source name. -/
def Client.with_base_url (self : Client) (base_url : String) : Client :=
  { self with base_url := base_url }

/-- HTTP method of a built request. -/
inductive Method where
  | GET : Method
  | POST : Method
  | PATCH : Method
deriving DecidableEq

/-- Model of a `ureq::Request` at the point it is sent: method, URL, the
headers set on it, and the JSON body (for `send_json`). -/
structure Request where
  method : Method
  url : String
  headers : List (String × String)
  body : Option Json

/-- Model of `ureq::Request::set`: set a header field, replacing an existing
header of the same (ASCII-case-insensitive) name. -/
def Request.set (self : Request) (name value : String) : Request :=
  { self with
    headers :=
      if self.headers.any (fun p => eqIgnoreAsciiCase p.fst name) then
        self.headers.map (fun p => if eqIgnoreAsciiCase p.fst name then (name, value) else p)
      else
        self.headers ++ [(name, value)] }

/-- Model of `Agent::post`: a fresh POST request to the given path.  The
agent itself only carries the connection pool and does not shape requests. -/
def Agent.post (_self : Agent) (path : String) : Request :=
  ⟨Method.POST, path, [], none⟩

/-- Model of `Agent::get`. -/
def Agent.get (_self : Agent) (path : String) : Request :=
  ⟨Method.GET, path, [], none⟩

/-- Model of `Agent::patch`. -/
def Agent.patch (_self : Agent) (path : String) : Request :=
  ⟨Method.PATCH, path, [], none⟩

/-- Model of `SetDefaultHeaders for Request` from `src/api/headers.rs`. -/
def Request.set_default_headers (self : Request) : Request :=
  (self.set "Content-Type" "application/json").set "Notion-Version" "2022-06-28"

/-- Model of `SetAuthorizationHeader for Request` from `src/api/headers.rs`
(`format!("Bearer {}", api_key)`). -/
def Request.set_authorization_header (self : Request) (api_key : String) : Request :=
  self.set "Authorization" ("Bearer " ++ api_key)

/-- Model of `Request::send_json(body)`, observed as the single request that
goes to the transport: the request with its JSON body attached. -/
def Request.send_json (self : Request) (body : Json) : Request :=
  { self with body := some body }

/-- Model of `Request::call()`, observed as the single request that goes to
the transport: the request, with no body. -/
def Request.call (self : Request) : Request :=
  self

/-- Model of `serde_json` `body["key"] = value` on an object
(`Value::index_mut` insert-or-replace); only applied to objects here. -/
def Json.insert (self : Json) (key : String) (value : Json) : Json :=
  match self with
  | Json.obj fields =>
    if fields.any (fun p => p.fst == key) then
      Json.obj (fields.map (fun p => if p.fst == key then (key, value) else p))
    else
      Json.obj (fields ++ [(key, value)])
  | other => other

/-- Whether a JSON object has a field with the given key. -/
def Json.hasKey (self : Json) (key : String) : Bool :=
  match self with
  | Json.obj fields => fields.any (fun p => p.fst == key)
  | _ => false

/-- The value of a JSON object's field with the given key, when present. -/
def Json.lookup (self : Json) (key : String) : Option Json :=
  match self with
  | Json.obj fields => (fields.find? (fun p => p.fst == key)).map Prod.snd
  | _ => none

/-- Model of `CreateDatabaseEntryParameters` from `src/api/parameters.rs`. -/
structure CreateDatabaseEntryParameters where
  database_id : String
  properties : Json

/-- Model of `QueryDatabaseParameters` from `src/api/parameters.rs`;
`NonZeroU32` is modelled as `Nat` (the only value built here is `100`). -/
structure QueryDatabaseParameters where
  database_id : String
  filter : Option Json
  page_size : Option Nat
  start_cursor : Option String

/-- Model of `UpdateDatabaseEntryParameters` from `src/api/parameters.rs`. -/
structure UpdateDatabaseEntryParameters where
  entry_id : String
  properties : Json

/-- Model of `create_database_entry` from `src/api/mod.rs`, observed as the
single request handed to the transport. -/
def create_database_entry (client : Client) (parameters : CreateDatabaseEntryParameters) :
    Request :=
  let path := client.base_url ++ "/pages"
  let body := Json.obj
    [("parent", Json.obj [("database_id", Json.str parameters.database_id)]),
     ("properties", parameters.properties)]
  ((((client.inner.post path).set_default_headers).set_authorization_header
    client.api_key).send_json body)

/-- Model of `query_database_properties` from `src/api/mod.rs`, observed as
the single request handed to the transport. -/
def query_database_properties (client : Client) (database_id : String) : Request :=
  let path := client.base_url ++ "/databases/" ++ database_id
  ((((client.inner.get path).set_default_headers).set_authorization_header
    client.api_key).call)

/-- Model of `query_database` from `src/api/mod.rs`, observed as the single
request handed to the transport: default page size `100`, then the optional
`start_cursor` and `filter` keys are inserted only when present. -/
def query_database (client : Client) (parameters : QueryDatabaseParameters) : Request :=
  let page_size := parameters.page_size.getD 100
  let path := client.base_url ++ "/databases/" ++ parameters.database_id ++ "/query"
  let body0 := Json.obj [("page_size", Json.num (page_size : ℚ))]
  let body1 :=
    match parameters.start_cursor with
    | some start_cursor => body0.insert "start_cursor" (Json.str start_cursor)
    | none => body0
  let body2 :=
    match parameters.filter with
    | some filter => body1.insert "filter" filter
    | none => body1
  ((((client.inner.post path).set_default_headers).set_authorization_header
    client.api_key).send_json body2)

/-- Model of `update_database_entry` from `src/api/mod.rs`, observed as the
single request handed to the transport. -/
def update_database_entry (client : Client) (parameters : UpdateDatabaseEntryParameters) :
    Request :=
  let path := client.base_url ++ "/pages/" ++ parameters.entry_id
  let body := Json.obj [("properties", parameters.properties)]
  ((((client.inner.patch path).set_default_headers).set_authorization_header
    client.api_key).send_json body)

example : parseF64 "2.5" = some (F64.finite (5 / 2)) := by
  simp [parseF64, parseSign, matchesKeywordCI, parseMantissa, digitsVal]
  norm_num

example : parseF64 "1.0" = some (F64.finite 1) := by
  simp [parseF64, parseSign, matchesKeywordCI, parseMantissa, digitsVal]

example : parseF64 "" = none := by
  simp [parseF64]

example : parseF64 "abc" = none := by
  simp [parseF64, parseSign, matchesKeywordCI, parseMantissa, digitsVal]

example : parseF64 "-3" = some (F64.finite (-3)) := by
  simp [parseF64, parseSign, matchesKeywordCI, parseMantissa, digitsVal]

example : parseF64 "NaN" = some F64.nan := by
  simp [parseF64, parseSign, matchesKeywordCI, parseMantissa, digitsVal]

example : parseF64 "inf" = some (F64.inf false) := by
  simp [parseF64, parseSign, matchesKeywordCI]

example : parseF64 "1e2" = some (F64.finite 100) := by
  simp [parseF64, parseSign, matchesKeywordCI, parseMantissa, digitsVal]
  norm_num

example : Duration.from_secs_f64 (F64.finite (5 / 2)) = some ⟨2500000000⟩ := by
  simp [Duration.from_secs_f64, NANOS_PER_SEC]
  norm_num [round_eq]
  try rfl

example : Duration.from_secs_f64 (F64.finite (-3)) = none := by
  simp [Duration.from_secs_f64]

example : Duration.from_secs_f64 F64.nan = none := by
  simp [Duration.from_secs_f64]

theorem send_with_retries_go_ok (f : Nat → ApiResult) (rl calls : Nat)
    (waits : List Duration) (r : Response) (hf : f calls = Except.ok r) :
    send_with_retries_go f rl calls waits = ⟨Except.ok r, waits, calls + 1⟩ := by
  cases rl <;> simp [send_with_retries_go, hf]

theorem send_with_retries_go_zero (f : Nat → ApiResult) (calls : Nat)
    (waits : List Duration) :
    send_with_retries_go f 0 calls waits = ⟨f calls, waits, calls + 1⟩ :=
  rfl

theorem send_with_retries_go_stop (f : Nat → ApiResult) (rl calls : Nat)
    (waits : List Duration) (e : Error) (hf : f calls = Except.error e)
    (hk : e.is_rate_limit = false) :
    send_with_retries_go f (rl + 1) calls waits = ⟨Except.error e, waits, calls + 1⟩ := by
  simp [send_with_retries_go, hf, hk]

theorem send_with_retries_go_step (f : Nat → ApiResult) (rl calls : Nat)
    (waits : List Duration) (e : Error) (d : Duration) (hf : f calls = Except.error e)
    (hk : e.is_rate_limit = true) (hr : e.retry_after = some d) :
    send_with_retries_go f (rl + 1) calls waits =
      send_with_retries_go f rl (calls + 1) (waits ++ [d]) := by
  simp [send_with_retries_go, hf, hk, hr]

theorem is_rate_limit_exists_duration (e : Error) (h : e.is_rate_limit = true) :
    ∃ d : Duration, e.kind = ErrorKind.RateLimit d ∧ e.retry_after = some d := by
  rcases e with ⟨k, src⟩
  cases k <;> simp_all [Error.is_rate_limit, Error.retry_after]

theorem is_rate_limit_of_kind (e : Error) (d : Duration)
    (h : e.kind = ErrorKind.RateLimit d) :
    e.is_rate_limit = true ∧ e.retry_after = some d := by
  rcases e with ⟨k, src⟩
  simp_all [Error.is_rate_limit, Error.retry_after]

/-- C9: `retry_after` returns some duration exactly when `is_rate_limit`
holds, the duration returned is the one carried by the `RateLimit` kind, and
every non-`RateLimit` error yields `none`. -/
theorem retry_after_agrees_with_is_rate_limit (e : Error) :
    ((e.retry_after).isSome = true ↔ e.is_rate_limit = true) ∧
    (∀ d : Duration, e.kind = ErrorKind.RateLimit d → e.retry_after = some d) ∧
    (e.is_rate_limit = false → e.retry_after = none) := by
  rcases e with ⟨k, src⟩
  cases k <;> simp [Error.retry_after, Error.is_rate_limit]

theorem retry_after_agrees_with_is_rate_limit_witness :
    Error.retry_after ⟨ErrorKind.RateLimit ⟨1000000000⟩, UreqError.transport "t"⟩ =
      some ⟨1000000000⟩ :=
  (retry_after_agrees_with_is_rate_limit
    ⟨ErrorKind.RateLimit ⟨1000000000⟩, UreqError.transport "t"⟩).2.1 ⟨1000000000⟩ rfl

/-- C10: the builder method `Client::base_url` replaces only the base URL;
the api key and the transport handle are unchanged. -/
theorem with_base_url_frame (c : Client) (u : String) :
    (c.with_base_url u).api_key = c.api_key ∧
    (c.with_base_url u).inner = c.inner ∧
    (c.with_base_url u).base_url = u :=
  ⟨rfl, rfl, rfl⟩

/-- C2: the classifier maps a connection-level failure to `Communication`,
HTTP 400 to `BadRequest`, HTTP 401 to `Authorization`, and any other status
outside {400, 401, 429} to `Unexpected`, for any response content; in every
case the original transport error (which carries the status code) is kept as
the error's source. -/
theorem classify_non_rate_limit (details : String) (r : Response) (code : Nat) :
    (Error.from_ureq (UreqError.transport details) =
      some ⟨ErrorKind.Communication, UreqError.transport details⟩) ∧
    (Error.from_ureq (UreqError.status 400 r) =
      some ⟨ErrorKind.BadRequest, UreqError.status 400 r⟩) ∧
    (Error.from_ureq (UreqError.status 401 r) =
      some ⟨ErrorKind.Authorization, UreqError.status 401 r⟩) ∧
    (code ≠ 400 → code ≠ 401 → code ≠ 429 →
      Error.from_ureq (UreqError.status code r) =
        some ⟨ErrorKind.Unexpected, UreqError.status code r⟩) := by
  refine ⟨rfl, rfl, rfl, fun h1 h2 h3 => ?_⟩
  simp [Error.from_ureq, h1, h2, h3]

theorem classify_non_rate_limit_witness :
    Error.from_ureq (UreqError.status 503 ⟨503, [], ""⟩) =
      some ⟨ErrorKind.Unexpected, UreqError.status 503 ⟨503, [], ""⟩⟩ :=
  (classify_non_rate_limit "t" ⟨503, [], ""⟩ 503).2.2.2
    (by decide) (by decide) (by decide)

/-- C4: when the first invocation fails with a non-`RateLimit` error, the
driver returns that exact error with zero waits and no further calls. -/
theorem retry_driver_non_retryable (f : Nat → ApiResult) (e : Error)
    (hf : f 0 = Except.error e) (he : e.is_rate_limit = false) :
    (send_with_retries f).result = Except.error e ∧
    (send_with_retries f).waits = [] ∧
    (send_with_retries f).calls = 1 := by
  have h : send_with_retries f = ⟨Except.error e, [], 1⟩ := by
    simpa [send_with_retries, max_retries] using
      send_with_retries_go_stop f 2 0 [] e hf he
  simp [h]

theorem retry_driver_non_retryable_witness :
    (send_with_retries (fun _ =>
        Except.error ⟨ErrorKind.BadRequest, UreqError.status 400 ⟨400, [], ""⟩⟩)).result =
      Except.error ⟨ErrorKind.BadRequest, UreqError.status 400 ⟨400, [], ""⟩⟩ ∧
    (send_with_retries (fun _ =>
        Except.error ⟨ErrorKind.BadRequest, UreqError.status 400 ⟨400, [], ""⟩⟩)).waits = [] ∧
    (send_with_retries (fun _ =>
        Except.error ⟨ErrorKind.BadRequest, UreqError.status 400 ⟨400, [], ""⟩⟩)).calls = 1 :=
  retry_driver_non_retryable _ _ rfl rfl

/-- C6: as soon as an invocation succeeds, the Retry Driver returns that
success immediately, regardless of attempt count: from any loop state (any
remaining retry budget, including none left on the fourth invocation, any
calls made and waits recorded so far) a successful invocation is returned at
once with no further waits or calls; at driver level, success at any attempt
`k ≤ max_retries` after `k` `RateLimit` failures is returned with exactly
`k` recorded waits and `k + 1` calls; in particular an operation failing
with `RateLimit` exactly twice and then succeeding returns the success after
exactly the two recorded waits and three calls. -/
theorem retry_driver_success (f : Nat → ApiResult) :
    (∀ (retriesLeft calls : Nat) (waits : List Duration) (r : Response),
      f calls = Except.ok r →
      send_with_retries_go f retriesLeft calls waits =
        ⟨Except.ok r, waits, calls + 1⟩) ∧
    (∀ (k : Nat) (r : Response), k ≤ max_retries →
      (∀ j : Nat, j < k → ∃ e : Error, f j = Except.error e ∧ e.is_rate_limit = true) →
      f k = Except.ok r →
      (send_with_retries f).result = Except.ok r ∧
      (send_with_retries f).waits.length = k ∧
      (send_with_retries f).calls = k + 1) ∧
    (∀ (e0 e1 : Error) (d0 d1 : Duration) (r : Response),
      f 0 = Except.error e0 → e0.kind = ErrorKind.RateLimit d0 →
      f 1 = Except.error e1 → e1.kind = ErrorKind.RateLimit d1 →
      f 2 = Except.ok r →
      (send_with_retries f).result = Except.ok r ∧
      (send_with_retries f).waits = [d0, d1] ∧
      (send_with_retries f).calls = 3) := by
  refine ⟨?_, ?_, ?_⟩
  · intro retriesLeft calls waits r hf
    exact send_with_retries_go_ok f retriesLeft calls waits r hf
  · intro k r hk hprev hfk
    have hk3 : k ≤ 3 := hk
    interval_cases k
    · have h : send_with_retries f = ⟨Except.ok r, [], 1⟩ := by
        simpa [send_with_retries, max_retries] using
          send_with_retries_go_ok f 3 0 [] r hfk
      simp [h]
    · obtain ⟨e0, hf0, hl0⟩ := hprev 0 (by norm_num)
      obtain ⟨d0, _, hr0⟩ := is_rate_limit_exists_duration e0 hl0
      have s0 : send_with_retries_go f 3 0 [] = send_with_retries_go f 2 1 [d0] :=
        send_with_retries_go_step f 2 0 [] e0 d0 hf0 hl0 hr0
      have s1 : send_with_retries_go f 2 1 [d0] = ⟨Except.ok r, [d0], 2⟩ :=
        send_with_retries_go_ok f 2 1 [d0] r hfk
      have h : send_with_retries f = ⟨Except.ok r, [d0], 2⟩ := by
        simp only [send_with_retries, max_retries]
        rw [s0, s1]
      simp [h]
    · obtain ⟨e0, hf0, hl0⟩ := hprev 0 (by norm_num)
      obtain ⟨e1, hf1, hl1⟩ := hprev 1 (by norm_num)
      obtain ⟨d0, _, hr0⟩ := is_rate_limit_exists_duration e0 hl0
      obtain ⟨d1, _, hr1⟩ := is_rate_limit_exists_duration e1 hl1
      have s0 : send_with_retries_go f 3 0 [] = send_with_retries_go f 2 1 [d0] :=
        send_with_retries_go_step f 2 0 [] e0 d0 hf0 hl0 hr0
      have s1 : send_with_retries_go f 2 1 [d0] = send_with_retries_go f 1 2 [d0, d1] :=
        send_with_retries_go_step f 1 1 [d0] e1 d1 hf1 hl1 hr1
      have s2 : send_with_retries_go f 1 2 [d0, d1] = ⟨Except.ok r, [d0, d1], 3⟩ :=
        send_with_retries_go_ok f 1 2 [d0, d1] r hfk
      have h : send_with_retries f = ⟨Except.ok r, [d0, d1], 3⟩ := by
        simp only [send_with_retries, max_retries]
        rw [s0, s1, s2]
      simp [h]
    · obtain ⟨e0, hf0, hl0⟩ := hprev 0 (by norm_num)
      obtain ⟨e1, hf1, hl1⟩ := hprev 1 (by norm_num)
      obtain ⟨e2, hf2, hl2⟩ := hprev 2 (by norm_num)
      obtain ⟨d0, _, hr0⟩ := is_rate_limit_exists_duration e0 hl0
      obtain ⟨d1, _, hr1⟩ := is_rate_limit_exists_duration e1 hl1
      obtain ⟨d2, _, hr2⟩ := is_rate_limit_exists_duration e2 hl2
      have s0 : send_with_retries_go f 3 0 [] = send_with_retries_go f 2 1 [d0] :=
        send_with_retries_go_step f 2 0 [] e0 d0 hf0 hl0 hr0
      have s1 : send_with_retries_go f 2 1 [d0] = send_with_retries_go f 1 2 [d0, d1] :=
        send_with_retries_go_step f 1 1 [d0] e1 d1 hf1 hl1 hr1
      have s2 : send_with_retries_go f 1 2 [d0, d1] =
          send_with_retries_go f 0 3 [d0, d1, d2] :=
        send_with_retries_go_step f 0 2 [d0, d1] e2 d2 hf2 hl2 hr2
      have s3 : send_with_retries_go f 0 3 [d0, d1, d2] =
          ⟨Except.ok r, [d0, d1, d2], 4⟩ :=
        send_with_retries_go_ok f 0 3 [d0, d1, d2] r hfk
      have h : send_with_retries f = ⟨Except.ok r, [d0, d1, d2], 4⟩ := by
        simp only [send_with_retries, max_retries]
        rw [s0, s1, s2, s3]
      simp [h]
  · intro e0 e1 d0 d1 r hf0 hk0 hf1 hk1 hf2
    obtain ⟨hrl0, hra0⟩ := is_rate_limit_of_kind e0 d0 hk0
    obtain ⟨hrl1, hra1⟩ := is_rate_limit_of_kind e1 d1 hk1
    have h : send_with_retries f = ⟨Except.ok r, [d0, d1], 3⟩ := by
      have s0 : send_with_retries_go f 3 0 [] = send_with_retries_go f 2 1 [d0] :=
        send_with_retries_go_step f 2 0 [] e0 d0 hf0 hrl0 hra0
      have s1 : send_with_retries_go f 2 1 [d0] = send_with_retries_go f 1 2 [d0, d1] :=
        send_with_retries_go_step f 1 1 [d0] e1 d1 hf1 hrl1 hra1
      have s2 : send_with_retries_go f 1 2 [d0, d1] = ⟨Except.ok r, [d0, d1], 3⟩ :=
        send_with_retries_go_ok f 1 2 [d0, d1] r hf2
      simp only [send_with_retries, max_retries]
      rw [s0, s1, s2]
    simp [h]

theorem retry_driver_success_witness :
    (send_with_retries (fun n =>
        if n < 3 then
          Except.error ⟨ErrorKind.RateLimit ⟨5⟩, UreqError.status 429 ⟨429, [], ""⟩⟩
        else Except.ok ⟨200, [], "ok"⟩)).result = Except.ok ⟨200, [], "ok"⟩ ∧
    (send_with_retries (fun n =>
        if n < 3 then
          Except.error ⟨ErrorKind.RateLimit ⟨5⟩, UreqError.status 429 ⟨429, [], ""⟩⟩
        else Except.ok ⟨200, [], "ok"⟩)).waits.length = 3 ∧
    (send_with_retries (fun n =>
        if n < 3 then
          Except.error ⟨ErrorKind.RateLimit ⟨5⟩, UreqError.status 429 ⟨429, [], ""⟩⟩
        else Except.ok ⟨200, [], "ok"⟩)).calls = 3 + 1 :=
  (retry_driver_success _).2.1 3 ⟨200, [], "ok"⟩ (Nat.le_refl 3)
    (fun j hj =>
      ⟨⟨ErrorKind.RateLimit ⟨5⟩, UreqError.status 429 ⟨429, [], ""⟩⟩, by simp [hj], rfl⟩)
    rfl

/-- C3: for an operation failing with `RateLimit` on every invocation, the
driver calls the operation exactly 4 times, invokes the wait primitive
exactly 3 times, and returns the last failure; moreover, for any operation
at all, the driver makes at most 4 calls. -/
theorem retry_driver_exhaustion (f : Nat → ApiResult) :
    ((∀ n : Nat, ∃ e : Error, f n = Except.error e ∧ e.is_rate_limit = true) →
      (send_with_retries f).result = f 3 ∧
      (send_with_retries f).calls = 4 ∧
      (send_with_retries f).waits.length = 3) ∧
    (send_with_retries f).calls ≤ 4 := by
  constructor
  · intro h
    obtain ⟨e0, hf0, hl0⟩ := h 0
    obtain ⟨e1, hf1, hl1⟩ := h 1
    obtain ⟨e2, hf2, hl2⟩ := h 2
    obtain ⟨d0, _, hr0⟩ := is_rate_limit_exists_duration e0 hl0
    obtain ⟨d1, _, hr1⟩ := is_rate_limit_exists_duration e1 hl1
    obtain ⟨d2, _, hr2⟩ := is_rate_limit_exists_duration e2 hl2
    have hrun : send_with_retries f = ⟨f 3, [d0, d1, d2], 4⟩ := by
      have s0 : send_with_retries_go f 3 0 [] = send_with_retries_go f 2 1 [d0] :=
        send_with_retries_go_step f 2 0 [] e0 d0 hf0 hl0 hr0
      have s1 : send_with_retries_go f 2 1 [d0] = send_with_retries_go f 1 2 [d0, d1] :=
        send_with_retries_go_step f 1 1 [d0] e1 d1 hf1 hl1 hr1
      have s2 : send_with_retries_go f 1 2 [d0, d1] =
          send_with_retries_go f 0 3 [d0, d1, d2] :=
        send_with_retries_go_step f 0 2 [d0, d1] e2 d2 hf2 hl2 hr2
      simp only [send_with_retries, max_retries]
      rw [s0, s1, s2, send_with_retries_go_zero]
    simp [hrun]
  · have key : ∀ (rl calls : Nat) (waits : List Duration),
        (send_with_retries_go f rl calls waits).calls ≤ calls + rl + 1 := by
      intro rl
      induction rl with
      | zero =>
        intro calls waits
        simp [send_with_retries_go_zero]
      | succ n ih =>
        intro calls waits
        cases hf : f calls with
        | ok r =>
          rw [send_with_retries_go_ok f (n + 1) calls waits r hf]
          show calls + 1 ≤ calls + (n + 1) + 1
          omega
        | error e =>
          by_cases hrl : e.is_rate_limit = true
          · obtain ⟨d, _, hra⟩ := is_rate_limit_exists_duration e hrl
            rw [send_with_retries_go_step f n calls waits e d hf hrl hra]
            have := ih (calls + 1) (waits ++ [d])
            omega
          · rw [send_with_retries_go_stop f n calls waits e hf
              (Bool.eq_false_iff.mpr hrl)]
            show calls + 1 ≤ calls + (n + 1) + 1
            omega
    have h4 := key 3 0 []
    simpa [send_with_retries, max_retries] using h4

theorem retry_driver_exhaustion_witness :
    (send_with_retries (fun _ =>
        Except.error ⟨ErrorKind.RateLimit ⟨7⟩, UreqError.status 429 ⟨429, [], ""⟩⟩)).result =
      Except.error ⟨ErrorKind.RateLimit ⟨7⟩, UreqError.status 429 ⟨429, [], ""⟩⟩ ∧
    (send_with_retries (fun _ =>
        Except.error ⟨ErrorKind.RateLimit ⟨7⟩, UreqError.status 429 ⟨429, [], ""⟩⟩)).calls = 4 ∧
    (send_with_retries (fun _ =>
        Except.error ⟨ErrorKind.RateLimit ⟨7⟩, UreqError.status 429 ⟨429, [], ""⟩⟩)).waits.length = 3 :=
  (retry_driver_exhaustion _).1 (fun _ =>
    ⟨⟨ErrorKind.RateLimit ⟨7⟩, UreqError.status 429 ⟨429, [], ""⟩⟩, rfl, rfl⟩)

theorem from_ureq_429 (r : Response) :
    Error.from_ureq (UreqError.status 429 r) =
      (rate_limit_error_kind r).map (fun k => ⟨k, UreqError.status 429 r⟩) := by
  simp [Error.from_ureq]

theorem parseF64_one : parseF64 "1.0" = some (F64.finite 1) := by
  simp [parseF64, parseSign, matchesKeywordCI, parseMantissa, digitsVal]

theorem rate_limit_error_kind_eval (r : Response) (q : ℚ)
    (hq : (parseF64 ((r.header "Retry-After").getD "1.0")).getD (F64.finite 1) =
      F64.finite q)
    (h0 : 0 ≤ q) (hb : q < 2 ^ 64) :
    rate_limit_error_kind r =
      some (ErrorKind.RateLimit ⟨(round (q * (NANOS_PER_SEC : ℚ))).toNat⟩) := by
  simp only [rate_limit_error_kind, hq, Duration.from_secs_f64]
  rw [if_neg (not_lt.mpr h0), if_neg (not_le.mpr hb)]

theorem rate_limit_error_kind_panic (r : Response)
    (h : Duration.from_secs_f64
      ((parseF64 ((r.header "Retry-After").getD "1.0")).getD (F64.finite 1)) = none) :
    rate_limit_error_kind r = none := by
  simp only [rate_limit_error_kind, h]

theorem round_one_second : (round ((1 : ℚ) * (NANOS_PER_SEC : ℚ))).toNat = NANOS_PER_SEC := by
  norm_num [NANOS_PER_SEC, round_eq]
  rfl

theorem rate_limit_error_kind_default (r : Response)
    (h : (parseF64 ((r.header "Retry-After").getD "1.0")).getD (F64.finite 1) =
      F64.finite 1) :
    rate_limit_error_kind r = some (ErrorKind.RateLimit ⟨NANOS_PER_SEC⟩) := by
  rw [rate_limit_error_kind_eval r 1 h (by norm_num) (by norm_num), round_one_second]

/-- C1 (amended): for every HTTP 429 outcome whose `Retry-After` header
parses as a non-negative finite decimal number of seconds (below `2^64`, at
whole-nanosecond precision), classification yields a `RateLimit` error whose
duration equals the parsed seconds exactly; a missing or unparseable header
defaults the duration to exactly 1 second.  The amendment restricts the
parseable branch to non-negative values: for a negative parsed value the
duration conversion panics instead of yielding an error (see the
counterexample). -/
theorem rate_limit_duration_exact (r : Response) :
    (∀ (s : String) (q : ℚ), r.header "Retry-After" = some s →
      parseF64 s = some (F64.finite q) → 0 ≤ q → q < 2 ^ 64 →
      (q * (NANOS_PER_SEC : ℚ)).den = 1 →
      ∃ d : Duration,
        Error.from_ureq (UreqError.status 429 r) =
          some ⟨ErrorKind.RateLimit d, UreqError.status 429 r⟩ ∧
        (d.nanos : ℚ) = q * (NANOS_PER_SEC : ℚ)) ∧
    (r.header "Retry-After" = none →
      Error.from_ureq (UreqError.status 429 r) =
        some ⟨ErrorKind.RateLimit ⟨NANOS_PER_SEC⟩, UreqError.status 429 r⟩) ∧
    (∀ s : String, r.header "Retry-After" = some s → parseF64 s = none →
      Error.from_ureq (UreqError.status 429 r) =
        some ⟨ErrorKind.RateLimit ⟨NANOS_PER_SEC⟩, UreqError.status 429 r⟩) := by
  refine ⟨?_, ?_, ?_⟩
  · intro s q hh hp h0 hb hden
    have heff : (parseF64 ((r.header "Retry-After").getD "1.0")).getD (F64.finite 1) =
        F64.finite q := by
      rw [hh]
      simp [hp]
    have hk := rate_limit_error_kind_eval r q heff h0 hb
    refine ⟨⟨(round (q * (NANOS_PER_SEC : ℚ))).toNat⟩, ?_, ?_⟩
    · rw [from_ureq_429, hk]
      rfl
    · have hnum : ((q * (NANOS_PER_SEC : ℚ)).num : ℚ) = q * (NANOS_PER_SEC : ℚ) := by
        conv_rhs => rw [← Rat.num_div_den (q * (NANOS_PER_SEC : ℚ))]
        rw [hden]
        simp
      have hround : round (q * (NANOS_PER_SEC : ℚ)) = (q * (NANOS_PER_SEC : ℚ)).num := by
        conv_lhs => rw [← hnum, round_intCast]
      have hnn : 0 ≤ (q * (NANOS_PER_SEC : ℚ)).num := by
        apply Rat.num_nonneg.mpr
        exact mul_nonneg h0 (by positivity)
      rw [hround]
      calc (((q * (NANOS_PER_SEC : ℚ)).num.toNat : ℕ) : ℚ)
          = (((q * (NANOS_PER_SEC : ℚ)).num : ℤ) : ℚ) := by
            exact_mod_cast Int.toNat_of_nonneg hnn
        _ = q * (NANOS_PER_SEC : ℚ) := hnum
  · intro hh
    have heff : (parseF64 ((r.header "Retry-After").getD "1.0")).getD (F64.finite 1) =
        F64.finite 1 := by
      rw [hh]
      simp [parseF64_one]
    rw [from_ureq_429, rate_limit_error_kind_default r heff]
    rfl
  · intro s hh hp
    have heff : (parseF64 ((r.header "Retry-After").getD "1.0")).getD (F64.finite 1) =
        F64.finite 1 := by
      rw [hh]
      simp [hp]
    rw [from_ureq_429, rate_limit_error_kind_default r heff]
    rfl

/-- C1 counterexample: at a 429 response with header `Retry-After: -3`, the
header parses as the floating-point number `-3`, `Duration::from_secs_f64`
panics on it, and classification yields no error at all — contradicting the
claim that every 429 outcome yields a `RateLimit` error. -/
theorem rate_limit_duration_exact_counterexample :
    Error.from_ureq (UreqError.status 429 ⟨429, [("Retry-After", "-3")], ""⟩) = none := by
  rw [from_ureq_429, rate_limit_error_kind_panic]
  · rfl
  · have hh : Response.header ⟨429, [("Retry-After", "-3")], ""⟩ "Retry-After" =
        some "-3" := by decide
    rw [hh]
    simp only [Option.getD_some]
    have hp : parseF64 "-3" = some (F64.finite (-3)) := by
      simp [parseF64, parseSign, matchesKeywordCI, parseMantissa, digitsVal]
    rw [hp]
    simp only [Option.getD_some]
    norm_num [Duration.from_secs_f64]

theorem rate_limit_duration_exact_witness :
    ∃ d : Duration,
      Error.from_ureq (UreqError.status 429 ⟨429, [("Retry-After", "2.5")], ""⟩) =
        some ⟨ErrorKind.RateLimit d,
          UreqError.status 429 ⟨429, [("Retry-After", "2.5")], ""⟩⟩ ∧
      (d.nanos : ℚ) = (5 / 2 : ℚ) * (NANOS_PER_SEC : ℚ) :=
  (rate_limit_duration_exact ⟨429, [("Retry-After", "2.5")], ""⟩).1 "2.5" (5 / 2)
    (by decide)
    (by simp [parseF64, parseSign, matchesKeywordCI, parseMantissa, digitsVal]; norm_num)
    (by norm_num) (by norm_num)
    (by rw [show (5 / 2 : ℚ) * (NANOS_PER_SEC : ℚ) = ((2500000000 : ℕ) : ℚ) by
          norm_num [NANOS_PER_SEC]]
        exact Rat.den_natCast 2500000000)

/-- C5 (amended): for every 429 outcome whose effective `Retry-After` value
(after the missing/unparseable defaults to `1.0`) is a non-negative finite
number of seconds below `2^64`, classification succeeds with a `RateLimit`
error (whose duration, a nanosecond count, is non-negative by construction);
the parsed value is not clamped: for a negative, NaN or infinite parsed
value `Duration::from_secs_f64` panics and classification does not return an
error (see the counterexample). -/
theorem classification_succeeds_on_nonneg (r : Response) :
    (∀ q : ℚ,
      (parseF64 ((r.header "Retry-After").getD "1.0")).getD (F64.finite 1) =
        F64.finite q →
      0 ≤ q → q < 2 ^ 64 →
      ∃ d : Duration,
        Error.from_ureq (UreqError.status 429 r) =
          some ⟨ErrorKind.RateLimit d, UreqError.status 429 r⟩) ∧
    (∀ q : ℚ,
      (parseF64 ((r.header "Retry-After").getD "1.0")).getD (F64.finite 1) =
        F64.finite q →
      q < 0 → Error.from_ureq (UreqError.status 429 r) = none) ∧
    ((parseF64 ((r.header "Retry-After").getD "1.0")).getD (F64.finite 1) = F64.nan →
      Error.from_ureq (UreqError.status 429 r) = none) ∧
    (∀ b : Bool,
      (parseF64 ((r.header "Retry-After").getD "1.0")).getD (F64.finite 1) = F64.inf b →
      Error.from_ureq (UreqError.status 429 r) = none) := by
  refine ⟨?_, ?_, ?_, ?_⟩
  · intro q heff h0 hb
    refine ⟨⟨(round (q * (NANOS_PER_SEC : ℚ))).toNat⟩, ?_⟩
    rw [from_ureq_429, rate_limit_error_kind_eval r q heff h0 hb]
    rfl
  · intro q heff hneg
    rw [from_ureq_429, rate_limit_error_kind_panic r
      (by rw [heff]; simp [Duration.from_secs_f64, hneg])]
    rfl
  · intro heff
    rw [from_ureq_429, rate_limit_error_kind_panic r (by rw [heff]; rfl)]
    rfl
  · intro b heff
    rw [from_ureq_429, rate_limit_error_kind_panic r (by rw [heff]; rfl)]
    rfl

/-- C5 counterexample: at a 429 response with header `Retry-After: nan`, the
header parses as NaN, `Duration::from_secs_f64` panics, and classification
does not return any `Error` — contradicting the claim that the value is
clamped and classification always succeeds. -/
theorem classification_succeeds_on_nonneg_counterexample :
    Error.from_ureq (UreqError.status 429 ⟨429, [("Retry-After", "nan")], ""⟩) = none := by
  rw [from_ureq_429, rate_limit_error_kind_panic]
  · rfl
  · have hh : Response.header ⟨429, [("Retry-After", "nan")], ""⟩ "Retry-After" =
        some "nan" := by decide
    rw [hh]
    simp only [Option.getD_some]
    have hp : parseF64 "nan" = some F64.nan := by
      simp [parseF64, parseSign, matchesKeywordCI, parseMantissa, digitsVal]
    rw [hp]
    rfl

theorem classification_succeeds_on_nonneg_witness :
    ∃ d : Duration,
      Error.from_ureq (UreqError.status 429 ⟨429, [], ""⟩) =
        some ⟨ErrorKind.RateLimit d, UreqError.status 429 ⟨429, [], ""⟩⟩ :=
  (classification_succeeds_on_nonneg ⟨429, [], ""⟩).1 1
    (by simp [Response.header, parseF64_one]) (by norm_num) (by norm_num)

/-- C7: `create_database_entry` issues exactly one POST request, to
`{base}/pages`, whose JSON body is
`{"parent":{"database_id":<id>},"properties":<payload>}`, carrying exactly
the three fixed headers `Content-Type: application/json`,
`Notion-Version: 2022-06-28` and `Authorization: Bearer <api_key>`. -/
theorem create_entry_request_shape (client : Client) (database_id : String)
    (properties : Json) :
    (create_database_entry client ⟨database_id, properties⟩).method = Method.POST ∧
    (create_database_entry client ⟨database_id, properties⟩).url =
      client.base_url ++ "/pages" ∧
    (create_database_entry client ⟨database_id, properties⟩).body =
      some (Json.obj
        [("parent", Json.obj [("database_id", Json.str database_id)]),
         ("properties", properties)]) ∧
    (create_database_entry client ⟨database_id, properties⟩).headers =
      [("Content-Type", "application/json"), ("Notion-Version", "2022-06-28"),
       ("Authorization", "Bearer " ++ client.api_key)] :=
  ⟨rfl, rfl, rfl, rfl⟩

/-- C8: a query with no filter, no cursor and no explicit page size sends a
POST to `{base}/databases/{id}/query` whose body is exactly
`{"page_size":100}`; for arbitrary parameters the `start_cursor` and
`filter` keys appear in the body exactly when the corresponding optional
parameter is present. -/
theorem query_request_body (client : Client) :
    (∀ database_id : String,
      (query_database client ⟨database_id, none, none, none⟩).method = Method.POST ∧
      (query_database client ⟨database_id, none, none, none⟩).url =
        client.base_url ++ "/databases/" ++ database_id ++ "/query" ∧
      (query_database client ⟨database_id, none, none, none⟩).body =
        some (Json.obj [("page_size", Json.num 100)])) ∧
    (∀ p : QueryDatabaseParameters,
      ((query_database client p).body.getD Json.null).hasKey "start_cursor" =
        p.start_cursor.isSome ∧
      ((query_database client p).body.getD Json.null).hasKey "filter" =
        p.filter.isSome) := by
  constructor
  · intro database_id
    refine ⟨rfl, rfl, ?_⟩
    simp [query_database, Request.send_json]
  · intro p
    rcases p with ⟨db, f, ps, sc⟩
    cases f <;> cases sc <;>
      simp [query_database, Json.insert, Json.hasKey, Request.send_json,
        Agent.post, Request.set_default_headers, Request.set_authorization_header,
        Request.set]
